import Mathlib

/-!
Verification of the rbAI backend's behavior engine, CES calculator, sandbox
execution pipeline and pedagogical firewall, via a shallow embedding of the
Python sources into Lean. Python floats are modelled as exact rationals (ℚ),
Python ints as ℤ, and the external world (Docker daemon, LLM provider) as
explicit oracles, so that every code path of the embedded functions is a
total Lean computation.
-/

namespace RbAI

/-! ## Data model: `app/services/behavior_engine/metrics.py` -/

/-- `SessionMetrics` DTO holding raw telemetry (metrics.py lines 3-27).
Float fields become ℚ, int fields ℤ, bool fields Bool.
`recent_burst_size_chars` carries its Python default of 0. -/
structure SessionMetrics where
  duration_minutes : ℚ
  total_keystrokes : ℤ
  total_run_attempts : ℤ
  total_idle_minutes : ℚ
  focus_violation_count : ℤ
  net_code_change : ℤ
  last_edit_size_chars : ℤ
  last_run_interval_seconds : ℚ
  is_semantic_change : Bool
  current_idle_duration : ℚ
  is_window_focused : Bool
  last_run_was_error : Bool
  recent_burst_size_chars : ℤ := 0
deriving DecidableEq

/-! ## Enums and `FusionInsights`: `app/services/behavior_engine/data_fusion.py` -/

/-- `ProvenanceState` enum (data_fusion.py lines 7-12). -/
inductive ProvenanceState
  | INCREMENTAL_EDIT
  | AUTHENTIC_REFACTORING
  | AMBIGUOUS_EDIT
  | SUSPECTED_PASTE
  | SPAMMING
deriving DecidableEq

/-- The `str` value each `ProvenanceState` member carries. -/
def ProvenanceState.value : ProvenanceState → String
  | .INCREMENTAL_EDIT => "Incremental Edit"
  | .AUTHENTIC_REFACTORING => "Authentic Refactoring"
  | .AMBIGUOUS_EDIT => "Ambiguous Large Edit"
  | .SUSPECTED_PASTE => "Suspected External Paste"
  | .SPAMMING => "Spamming"

/-- `IterationState` enum (data_fusion.py lines 14-19). -/
inductive IterationState
  | NORMAL
  | DELIBERATE_DEBUGGING
  | VERIFICATION_RUN
  | MICRO_ITERATION
  | RAPID_GUESSING
deriving DecidableEq

/-- The `str` value each `IterationState` member carries. -/
def IterationState.value : IterationState → String
  | .NORMAL => "Normal"
  | .DELIBERATE_DEBUGGING => "Deliberate Debugging"
  | .VERIFICATION_RUN => "Verification Run"
  | .MICRO_ITERATION => "Micro-Iteration"
  | .RAPID_GUESSING => "Rapid-Fire Guessing"

/-- `CognitiveState` enum (data_fusion.py lines 21-25). -/
inductive CognitiveState
  | ACTIVE
  | REFLECTIVE_PAUSE
  | PASSIVE_IDLE
  | DISENGAGEMENT
deriving DecidableEq

/-- The `str` value each `CognitiveState` member carries. -/
def CognitiveState.value : CognitiveState → String
  | .ACTIVE => "Active"
  | .REFLECTIVE_PAUSE => "Reflective Pause"
  | .PASSIVE_IDLE => "Passive Idle"
  | .DISENGAGEMENT => "Disengagement"

/-- `FusionInsights` dataclass (data_fusion.py lines 29-42). -/
structure FusionInsights where
  provenance_state : ProvenanceState
  iteration_state : IterationState
  cognitive_state : CognitiveState
  effective_kpm : ℚ
  effective_ad : ℚ
  effective_ir : ℚ
  integrity_penalty : ℚ
deriving DecidableEq

/-! ## `DataFusionEngine` thresholds (data_fusion.py lines 63-96).
Float literals are written as the exact rationals they denote in the source
text. -/

def LARGE_INSERTION_THRESHOLD : ℤ := 30
def BURST_TYPING_MIN : ℤ := 50
def BURST_TYPING_MAX : ℤ := 100
def SPAM_KEYSTROKE_MINIMUM : ℤ := 200
def SPAM_EFFICIENCY_THRESHOLD : ℚ := 1/20
def RAPID_ITERATION_THRESHOLD : ℚ := 10
def RAPID_GUESSING_PENALTY : ℚ := 4/5
def REFLECTIVE_PAUSE_MIN : ℚ := 30
def DISENGAGEMENT_THRESHOLD : ℚ := 120

/-- `raw_kpm` local of `DataFusionEngine.analyze` (data_fusion.py line 132). -/
def rawKpm (m : SessionMetrics) : ℚ :=
  if m.duration_minutes > 0 then (m.total_keystrokes : ℚ) / m.duration_minutes else 0

/-- The `keystroke_to_insertion_ratio` local of `DataFusionEngine.analyze`
(data_fusion.py line 141). -/
def keystrokeDensity (m : SessionMetrics) : ℚ :=
  if m.last_edit_size_chars > 0 then
    (m.recent_burst_size_chars : ℚ) / (m.last_edit_size_chars : ℚ)
  else 0

/-- Lines 128-160 of `DataFusionEngine.analyze`: the default
`(INCREMENTAL_EDIT, 0)` state and the large-insertion logic tree, yielding a
provisional `(provenance, integrity_penalty)` pair. -/
def largeInsertionCheck (m : SessionMetrics) : ProvenanceState × ℚ :=
  if m.last_edit_size_chars > LARGE_INSERTION_THRESHOLD then
    if keystrokeDensity m < 1/5 ∧ m.focus_violation_count > 0 ∧ m.last_edit_size_chars > 50 then
      (.SUSPECTED_PASTE, 1/2)
    else if keystrokeDensity m > 4/5 then
      (.AUTHENTIC_REFACTORING, 0)
    else
      (.AMBIGUOUS_EDIT, 0)
  else (.INCREMENTAL_EDIT, 0)

/-- The `efficiency_ratio` local of `DataFusionEngine.analyze`
(data_fusion.py line 165). -/
def efficiencyOf (m : SessionMetrics) : ℚ :=
  if m.total_keystrokes > 50 then (m.net_code_change : ℚ) / (m.total_keystrokes : ℚ) else 1

/-- Lines 172-179 of `DataFusionEngine.analyze`: the strict secondary paste
detection, applied on top of the large-insertion result. -/
def secondaryPasteCheck (m : SessionMetrics) : ProvenanceState × ℚ :=
  if m.net_code_change > 200 ∧
      (m.total_keystrokes : ℚ) < (m.net_code_change : ℚ) * (3/10) ∧
      m.focus_violation_count > 2 ∧
      (largeInsertionCheck m).1 ≠ .SUSPECTED_PASTE ∧ (largeInsertionCheck m).1 ≠ .SPAMMING then
    (.SUSPECTED_PASTE, 1/2)
  else largeInsertionCheck m

/-- Lines 181-193 of `DataFusionEngine.analyze`: the spam / burst-typing
branch (the `is_burst_typing` local of line 168 is the conjunction in the
second guard), producing the final
`(provenance, integrity_penalty, effective_kpm)` triple.  Note that
`integrity_penalty` is NOT reset when `SPAMMING` overwrites the provenance. -/
def provenanceBlock (m : SessionMetrics) : ProvenanceState × ℚ × ℚ :=
  if m.total_keystrokes > SPAM_KEYSTROKE_MINIMUM ∧ efficiencyOf m < SPAM_EFFICIENCY_THRESHOLD then
    (.SPAMMING, (secondaryPasteCheck m).2, 0)
  else if (BURST_TYPING_MIN ≤ m.recent_burst_size_chars ∧
      m.recent_burst_size_chars ≤ BURST_TYPING_MAX) ∧ efficiencyOf m < 3/20 then
    (if (secondaryPasteCheck m).1 = .INCREMENTAL_EDIT then .SPAMMING
      else (secondaryPasteCheck m).1,
      (secondaryPasteCheck m).2, rawKpm m * (1/2))
  else
    ((secondaryPasteCheck m).1, (secondaryPasteCheck m).2, rawKpm m)

/-- Section 2 of `DataFusionEngine.analyze`: iteration quality
(data_fusion.py lines 196-231). Returns `(iteration, effective_runs)`. -/
def iterationBlock (m : SessionMetrics) : IterationState × ℚ :=
  if m.last_run_interval_seconds < RAPID_ITERATION_THRESHOLD then
    if m.is_semantic_change = false then
      (.RAPID_GUESSING, (m.total_run_attempts : ℚ) * RAPID_GUESSING_PENALTY)
    else if m.last_run_was_error then
      (.RAPID_GUESSING, (m.total_run_attempts : ℚ) * RAPID_GUESSING_PENALTY)
    else
      (.MICRO_ITERATION, (m.total_run_attempts : ℚ))
  else if m.is_semantic_change then
    (.DELIBERATE_DEBUGGING, (m.total_run_attempts : ℚ))
  else
    (.VERIFICATION_RUN, (m.total_run_attempts : ℚ))

/-- Section 3 of `DataFusionEngine.analyze`: cognitive state
(data_fusion.py lines 235-258). Returns `(cognitive, adjusted_idle_minutes)`. -/
def cognitiveBlock (m : SessionMetrics) : CognitiveState × ℚ :=
  if m.current_idle_duration > REFLECTIVE_PAUSE_MIN then
    if m.is_window_focused = false then
      (.DISENGAGEMENT, m.total_idle_minutes)
    else if m.last_run_was_error then
      (.REFLECTIVE_PAUSE, max 0 (m.total_idle_minutes - m.current_idle_duration / 60))
    else
      (.PASSIVE_IDLE, m.total_idle_minutes)
  else (.ACTIVE, m.total_idle_minutes)

/-- `DataFusionEngine.analyze` (data_fusion.py lines 98-271), assembled from
the three decision-tree blocks exactly as the source interleaves them. -/
def analyze (m : SessionMetrics) : FusionInsights :=
  let pb := provenanceBlock m
  let ib := iterationBlock m
  let effective_ad := if m.duration_minutes > 0 then ib.2 / m.duration_minutes else 0
  let cb := cognitiveBlock m
  let effective_ir := if m.duration_minutes > 0 then cb.2 / m.duration_minutes else 0
  { provenance_state := pb.1
    iteration_state := ib.1
    cognitive_state := cb.1
    effective_kpm := pb.2.2
    effective_ad := effective_ad
    effective_ir := effective_ir
    integrity_penalty := pb.2.1 }

/-! ## `CESCalculator`: `app/services/behavior_engine/ces_calculator.py` -/

def MIN_KPM : ℚ := 5
def MAX_KPM : ℚ := 24
def MIN_AD : ℚ := 1/20
def MAX_AD : ℚ := 1/2
def MIN_IR : ℚ := 0
def MAX_IR : ℚ := 3/5
def MIN_FVC : ℚ := 0
def MAX_FVC : ℚ := 10
def W_KPM : ℚ := 2/5
def W_AD : ℚ := 3/10
def W_IR : ℚ := 1/5
def W_FVC : ℚ := 1/10

/-- Python's `round` to an integer: round half to even. -/
def pyRoundHalfEven (x : ℚ) : ℤ :=
  if x - (⌊x⌋ : ℚ) < 1/2 then ⌊x⌋
  else if 1/2 < x - (⌊x⌋ : ℚ) then ⌊x⌋ + 1
  else if ⌊x⌋ % 2 = 0 then ⌊x⌋ else ⌊x⌋ + 1

/-- Python's `round(x, d)` on exact values. -/
def pyRound (x : ℚ) (d : ℕ) : ℚ := (pyRoundHalfEven (x * 10 ^ d) : ℚ) / 10 ^ d

/-- `CESCalculator._normalize` (ces_calculator.py lines 164-182):
clamped min-max normalization to [0, 1]. -/
def normalize (value min_val max_val : ℚ) : ℚ :=
  if max_val - min_val = 0 then 0
  else max 0 (min 1 ((value - min_val) / (max_val - min_val)))

/-- `CESCalculator._get_label` (ces_calculator.py lines 184-197). -/
def get_label (score : ℚ) : String :=
  if score > 1/2 then "High Engagement"
  else if score > 1/5 then "Moderate Engagement"
  else if score > 0 then "Low Engagement"
  else "Disengaged/Suspicious"

/-- The dict returned by `CESCalculator.calculate` (ces_calculator.py
lines 137-162), flattened into a record. -/
structure CESResult where
  kpm : ℚ
  ad : ℚ
  ir : ℚ
  ces : ℚ
  classification : String
  ces_score : ℚ
  grade_label : String
  provenance : ProvenanceState
  iteration : IterationState
  cognitive : CognitiveState
  kpm_effective : ℚ
  ad_effective : ℚ
  ir_effective : ℚ
deriving DecidableEq

/-- `CESCalculator.calculate` (ces_calculator.py lines 80-162). -/
def calculate (m : SessionMetrics) (insights : FusionInsights) : CESResult :=
  let kpm_norm := normalize insights.effective_kpm MIN_KPM MAX_KPM
  let ad_norm := normalize insights.effective_ad MIN_AD MAX_AD
  let ir_norm := normalize insights.effective_ir MIN_IR MAX_IR
  let fvc_norm := normalize (m.focus_violation_count : ℚ) MIN_FVC MAX_FVC
  let productive_score := W_KPM * kpm_norm + W_AD * ad_norm
  let penalty_score := W_IR * ir_norm + W_FVC * fvc_norm
  let final_ces := max (-1) (min 1 (productive_score - penalty_score - insights.integrity_penalty))
  { kpm := pyRound insights.effective_kpm 2
    ad := pyRound insights.effective_ad 4
    ir := pyRound insights.effective_ir 2
    ces := pyRound final_ces 4
    classification := get_label final_ces
    ces_score := pyRound final_ces 4
    grade_label := get_label final_ces
    provenance := insights.provenance_state
    iteration := insights.iteration_state
    cognitive := insights.cognitive_state
    kpm_effective := pyRound insights.effective_kpm 2
    ad_effective := pyRound insights.effective_ad 4
    ir_effective := pyRound insights.effective_ir 2 }


/-! ## Telemetry endpoint: `app/api/endpoints/telemetry.py` -/

/-- `TelemetryRequest` model (telemetry.py lines 29-51). It has no
`recent_burst_size_chars` field. -/
structure TelemetryRequest where
  session_id : String
  problem_id : String
  session_duration_minutes : ℚ
  total_keystrokes : ℤ
  total_run_attempts : ℤ
  total_idle_minutes : ℚ
  focus_violation_count : ℤ
  net_code_change : ℤ
  last_edit_size_chars : ℤ
  last_run_interval_seconds : ℚ
  is_semantic_change : Bool
  current_idle_duration : ℚ
  is_window_focused : Bool
  last_run_was_error : Bool

/-- Step 1 of `analyze_telemetry` (telemetry.py lines 106-119): the
`SessionMetrics` constructor call, which omits `recent_burst_size_chars`,
so the dataclass default 0 applies. -/
def requestMetrics (r : TelemetryRequest) : SessionMetrics :=
  { duration_minutes := r.session_duration_minutes
    total_keystrokes := r.total_keystrokes
    total_run_attempts := r.total_run_attempts
    total_idle_minutes := r.total_idle_minutes
    focus_violation_count := r.focus_violation_count
    net_code_change := r.net_code_change
    last_edit_size_chars := r.last_edit_size_chars
    last_run_interval_seconds := r.last_run_interval_seconds
    is_semantic_change := r.is_semantic_change
    current_idle_duration := r.current_idle_duration
    is_window_focused := r.is_window_focused
    last_run_was_error := r.last_run_was_error }

/-- `TelemetryResponse` model (telemetry.py lines 54-80), minus the
server-clock `timestamp` field. -/
structure TelemetryResponse where
  kpm : ℚ
  ad : ℚ
  ir : ℚ
  fvc : ℤ
  ces : ℚ
  ces_classification : String
  provenance_state : String
  iteration_state : String
  cognitive_state : String
  effective_kpm : ℚ
  effective_ad : ℚ
  effective_ir : ℚ
  integrity_penalty : ℚ

/-- `analyze_telemetry` endpoint body (telemetry.py lines 85-157). -/
def analyze_telemetry (r : TelemetryRequest) : TelemetryResponse :=
  let metrics := requestMetrics r
  let fusion_insights := analyze metrics
  let ces_result := calculate metrics fusion_insights
  { kpm := ces_result.kpm
    ad := ces_result.ad
    ir := ces_result.ir
    fvc := metrics.focus_violation_count
    ces := ces_result.ces
    ces_classification := ces_result.classification
    provenance_state := fusion_insights.provenance_state.value
    iteration_state := fusion_insights.iteration_state.value
    cognitive_state := fusion_insights.cognitive_state.value
    effective_kpm := fusion_insights.effective_kpm
    effective_ad := fusion_insights.effective_ad
    effective_ir := fusion_insights.effective_ir
    integrity_penalty := fusion_insights.integrity_penalty }

/-! ## Helper lemmas about rounding -/

theorem pyRoundHalfEven_le {y : ℚ} {B : ℤ} (h : y ≤ (B : ℚ)) :
    pyRoundHalfEven y ≤ B := by
  have hfl : (⌊y⌋ : ℚ) ≤ y := Int.floor_le y
  have hfl2 : ⌊y⌋ ≤ B := by exact_mod_cast hfl.trans h
  unfold pyRoundHalfEven
  split_ifs with hf1 hf2 hf3
  · exact hfl2
  · have h1 : (⌊y⌋ : ℚ) < (B : ℚ) := by linarith
    have h2 : ⌊y⌋ < B := by exact_mod_cast h1
    omega
  · exact hfl2
  · have h1 : (⌊y⌋ : ℚ) < (B : ℚ) := by linarith
    have h2 : ⌊y⌋ < B := by exact_mod_cast h1
    omega

theorem pyRoundHalfEven_ge {y : ℚ} {B : ℤ} (h : ((-B : ℤ) : ℚ) ≤ y) :
    -B ≤ pyRoundHalfEven y := by
  have hfl : -B ≤ ⌊y⌋ := Int.le_floor.mpr h
  unfold pyRoundHalfEven
  split_ifs <;> omega

theorem pyRound4_bounds {x : ℚ} (h1 : -1 ≤ x) (h2 : x ≤ 1) :
    -1 ≤ pyRound x 4 ∧ pyRound x 4 ≤ 1 := by
  have hB1 : x * 10 ^ 4 ≤ ((10000 : ℤ) : ℚ) := by push_cast; nlinarith
  have hB2 : (((-10000 : ℤ) : ℤ) : ℚ) ≤ x * 10 ^ 4 := by push_cast; nlinarith
  have hle : pyRoundHalfEven (x * 10 ^ 4) ≤ (10000 : ℤ) := pyRoundHalfEven_le hB1
  have hge : -(10000 : ℤ) ≤ pyRoundHalfEven (x * 10 ^ 4) := by
    exact pyRoundHalfEven_ge (B := (10000 : ℤ)) (by push_cast at hB2 ⊢; linarith)
  unfold pyRound
  have hpos : (0 : ℚ) < 10 ^ 4 := by norm_num
  constructor
  · rw [le_div_iff₀ hpos]
    have : ((-10000 : ℤ) : ℚ) ≤ (pyRoundHalfEven (x * 10 ^ 4) : ℚ) := by exact_mod_cast hge
    push_cast at this ⊢
    linarith
  · rw [div_le_iff₀ hpos]
    have : ((pyRoundHalfEven (x * 10 ^ 4) : ℤ) : ℚ) ≤ ((10000 : ℤ) : ℚ) := by exact_mod_cast hle
    push_cast at this ⊢
    linarith

/-! ## Claim theorems for the behavior engine -/

/-- C1: for every `SessionMetrics` and every `FusionInsights` passed to
`CESCalculator.calculate`, the returned CES value lies in [-1, 1] (the clamp
is applied after subtracting the integrity penalty). -/
theorem calculate_ces_in_range (m : SessionMetrics) (insights : FusionInsights) :
    -1 ≤ (calculate m insights).ces ∧ (calculate m insights).ces ≤ 1 := by
  have key : ∀ x : ℚ,
      -1 ≤ pyRound (max (-1) (min 1 x)) 4 ∧ pyRound (max (-1) (min 1 x)) 4 ≤ 1 := by
    intro x
    exact pyRound4_bounds (le_max_left _ _) (max_le (by norm_num) (min_le_left _ _))
  exact key _

/-! ## Provenance / penalty lemmas -/

theorem largeInsertionCheck_spec (m : SessionMetrics) :
    ((largeInsertionCheck m).1 = .SUSPECTED_PASTE → (largeInsertionCheck m).2 = 1/2) ∧
    ((largeInsertionCheck m).1 ≠ .SUSPECTED_PASTE → (largeInsertionCheck m).2 = 0) ∧
    (largeInsertionCheck m).1 ≠ .SPAMMING ∧
    ((largeInsertionCheck m).2 = 0 ∨ (largeInsertionCheck m).2 = 1/2) := by
  unfold largeInsertionCheck
  split_ifs <;> simp

theorem secondaryPasteCheck_spec (m : SessionMetrics) :
    ((secondaryPasteCheck m).1 = .SUSPECTED_PASTE → (secondaryPasteCheck m).2 = 1/2) ∧
    ((secondaryPasteCheck m).1 ≠ .SUSPECTED_PASTE → (secondaryPasteCheck m).2 = 0) ∧
    (secondaryPasteCheck m).1 ≠ .SPAMMING ∧
    ((secondaryPasteCheck m).2 = 0 ∨ (secondaryPasteCheck m).2 = 1/2) := by
  have h := largeInsertionCheck_spec m
  unfold secondaryPasteCheck
  split_ifs <;> simp_all

/-- C3 (amended): `SUSPECTED_PASTE` implies `integrity_penalty = 0.5`; every
final provenance other than `SUSPECTED_PASTE` and `SPAMMING` has penalty 0;
and the penalty is always 0 or 0.5.  (`SPAMMING` can carry penalty 0.5 when
the spam branch overwrites an earlier `SUSPECTED_PASTE` classification
without resetting the penalty, so the claim's "no other state" clause fails
exactly there.) -/
theorem analyze_integrity_penalty_rules (m : SessionMetrics) :
    ((analyze m).provenance_state = .SUSPECTED_PASTE → (analyze m).integrity_penalty = 1/2) ∧
    ((analyze m).provenance_state ≠ .SUSPECTED_PASTE → (analyze m).provenance_state ≠ .SPAMMING →
        (analyze m).integrity_penalty = 0) ∧
    ((analyze m).integrity_penalty = 0 ∨ (analyze m).integrity_penalty = 1/2) := by
  have hs := secondaryPasteCheck_spec m
  have e1 : (analyze m).provenance_state = (provenanceBlock m).1 := rfl
  have e2 : (analyze m).integrity_penalty = (provenanceBlock m).2.1 := rfl
  rw [e1, e2]
  unfold provenanceBlock
  split_ifs <;> simp_all

/-- C2 (amended): when `DataFusionEngine.analyze` returns provenance
`SPAMMING`, the effective KPM is either 0 (high-volume spam branch,
keystrokes > 200 and efficiency < 0.05) or half the raw KPM (burst-typing
promotion branch). -/
theorem analyze_spamming_effective_kpm (m : SessionMetrics)
    (h : (analyze m).provenance_state = .SPAMMING) :
    (analyze m).effective_kpm = 0 ∨ (analyze m).effective_kpm = rawKpm m * (1/2) := by
  have hs := secondaryPasteCheck_spec m
  have e1 : (analyze m).provenance_state = (provenanceBlock m).1 := rfl
  have e3 : (analyze m).effective_kpm = (provenanceBlock m).2.2 := rfl
  rw [e1] at h
  rw [e3]
  unfold provenanceBlock at h ⊢
  split_ifs at h ⊢ <;> simp_all

/-- Burst-typing input refuting C2 as stated: 100 keystrokes in 10 minutes,
net change 5, burst of 50 chars.  The burst branch fires (efficiency
5/100 < 0.15), promotes `INCREMENTAL_EDIT` to `SPAMMING`, yet sets
`effective_kpm = 0.5 * raw_kpm = 5`, not 0. -/
def burstPromotionMetrics : SessionMetrics :=
  { duration_minutes := 10, total_keystrokes := 100, total_run_attempts := 1,
    total_idle_minutes := 0, focus_violation_count := 0, net_code_change := 5,
    last_edit_size_chars := 0, last_run_interval_seconds := 60, is_semantic_change := true,
    current_idle_duration := 0, is_window_focused := true, last_run_was_error := false,
    recent_burst_size_chars := 50 }

/-- C2 counterexample: a concrete input classified `SPAMMING` whose
`effective_kpm` is 5, not 0. -/
theorem analyze_spamming_kpm_cex :
    (analyze burstPromotionMetrics).provenance_state = .SPAMMING ∧
    (analyze burstPromotionMetrics).effective_kpm = 5 ∧ (5 : ℚ) ≠ 0 := by
  refine ⟨?_, ?_, by norm_num⟩ <;>
    norm_num [analyze, provenanceBlock, secondaryPasteCheck, largeInsertionCheck,
      keystrokeDensity, efficiencyOf, rawKpm, burstPromotionMetrics,
      LARGE_INSERTION_THRESHOLD, BURST_TYPING_MIN, BURST_TYPING_MAX,
      SPAM_KEYSTROKE_MINIMUM, SPAM_EFFICIENCY_THRESHOLD]

/-- C2 witness: the amended theorem applied at `burstPromotionMetrics`. -/
theorem analyze_spamming_effective_kpm_witness :
    (analyze burstPromotionMetrics).effective_kpm = 0 ∨
    (analyze burstPromotionMetrics).effective_kpm = rawKpm burstPromotionMetrics * (1/2) :=
  analyze_spamming_effective_kpm burstPromotionMetrics
    (by norm_num [analyze, provenanceBlock, secondaryPasteCheck, largeInsertionCheck,
      keystrokeDensity, efficiencyOf, rawKpm, burstPromotionMetrics,
      LARGE_INSERTION_THRESHOLD, BURST_TYPING_MIN, BURST_TYPING_MAX,
      SPAM_KEYSTROKE_MINIMUM, SPAM_EFFICIENCY_THRESHOLD])

/-- Input refuting C3 as stated: the large-insertion branch classifies
`SUSPECTED_PASTE` with penalty 0.5, then the spam branch (300 keystrokes,
efficiency 10/300 < 0.05) overwrites the provenance with `SPAMMING` but
leaves the 0.5 penalty in place. -/
def pasteThenSpamMetrics : SessionMetrics :=
  { duration_minutes := 10, total_keystrokes := 300, total_run_attempts := 1,
    total_idle_minutes := 0, focus_violation_count := 1, net_code_change := 10,
    last_edit_size_chars := 100, last_run_interval_seconds := 60, is_semantic_change := true,
    current_idle_duration := 0, is_window_focused := true, last_run_was_error := false,
    recent_burst_size_chars := 10 }

/-- C3 counterexample: a concrete input whose final provenance is `SPAMMING`
(not `SUSPECTED_PASTE`) yet whose integrity penalty is 0.5, not 0. -/
theorem analyze_penalty_spamming_cex :
    (analyze pasteThenSpamMetrics).provenance_state = .SPAMMING ∧
    (analyze pasteThenSpamMetrics).integrity_penalty = 1/2 ∧ (1/2 : ℚ) ≠ 0 := by
  refine ⟨?_, ?_, by norm_num⟩ <;>
    norm_num [analyze, provenanceBlock, secondaryPasteCheck, largeInsertionCheck,
      keystrokeDensity, efficiencyOf, rawKpm, pasteThenSpamMetrics,
      LARGE_INSERTION_THRESHOLD, BURST_TYPING_MIN, BURST_TYPING_MAX,
      SPAM_KEYSTROKE_MINIMUM, SPAM_EFFICIENCY_THRESHOLD]

/-- A clean `SUSPECTED_PASTE` input: one 300-char insertion typed with only a
15-char burst, with focus violations present. -/
def pasteMetrics : SessionMetrics :=
  { duration_minutes := 5, total_keystrokes := 20, total_run_attempts := 1,
    total_idle_minutes := 0, focus_violation_count := 2, net_code_change := 400,
    last_edit_size_chars := 300, last_run_interval_seconds := 60, is_semantic_change := true,
    current_idle_duration := 0, is_window_focused := true, last_run_was_error := false,
    recent_burst_size_chars := 15 }

/-- C3 witness: the amended theorem applied at `pasteMetrics`, discharging the
`SUSPECTED_PASTE` hypothesis of its first conjunct concretely. -/
theorem analyze_integrity_penalty_rules_witness :
    (analyze pasteMetrics).integrity_penalty = 1/2 :=
  (analyze_integrity_penalty_rules pasteMetrics).1
    (by norm_num [analyze, provenanceBlock, secondaryPasteCheck, largeInsertionCheck,
      keystrokeDensity, efficiencyOf, rawKpm, pasteMetrics,
      LARGE_INSERTION_THRESHOLD, BURST_TYPING_MIN, BURST_TYPING_MAX,
      SPAM_KEYSTROKE_MINIMUM, SPAM_EFFICIENCY_THRESHOLD])

/-! ## Telemetry endpoint claim -/

theorem analyze_zero_burst_not_refactoring (m : SessionMetrics)
    (hb : m.recent_burst_size_chars = 0) :
    (analyze m).provenance_state ≠ .AUTHENTIC_REFACTORING := by
  have hli : (largeInsertionCheck m).1 ≠ .AUTHENTIC_REFACTORING := by
    unfold largeInsertionCheck keystrokeDensity
    split_ifs with h1 h2 h3 <;> simp_all <;> linarith
  have hsp : (secondaryPasteCheck m).1 ≠ .AUTHENTIC_REFACTORING := by
    unfold secondaryPasteCheck
    split_ifs <;> simp_all
  have e1 : (analyze m).provenance_state = (provenanceBlock m).1 := rfl
  rw [e1]
  unfold provenanceBlock
  split_ifs <;> simp_all

/-- C9: every request accepted by the `/api/telemetry/analyze` endpoint
yields a provenance label that is never "Authentic Refactoring", because
`TelemetryRequest` has no `recent_burst_size_chars` field, the constructed
`SessionMetrics` therefore always has burst 0, and the
`keystroke_to_insertion_ratio > 0.8` branch is unreachable. -/
theorem telemetry_never_authentic_refactoring (r : TelemetryRequest) :
    (analyze_telemetry r).provenance_state ≠ "Authentic Refactoring" := by
  have hb : (requestMetrics r).recent_burst_size_chars = 0 := rfl
  have hne := analyze_zero_burst_not_refactoring (requestMetrics r) hb
  have e : (analyze_telemetry r).provenance_state =
      (analyze (requestMetrics r)).provenance_state.value := rfl
  rw [e]
  cases hx : (analyze (requestMetrics r)).provenance_state <;>
    simp_all [ProvenanceState.value]

/-! ## Scenario 1 (spec section 8) -/

/-- The literal metrics of spec scenario 1 / claim C7. -/
def scenarioOneMetrics : SessionMetrics :=
  { duration_minutes := 10, total_keystrokes := 150, total_run_attempts := 3,
    total_idle_minutes := 1, focus_violation_count := 0, net_code_change := 120,
    last_edit_size_chars := 10, last_run_interval_seconds := 25, is_semantic_change := true,
    current_idle_duration := 5, is_window_focused := true, last_run_was_error := false,
    recent_burst_size_chars := 0 }

/-- The `FusionInsights` record that scenario 1 should produce. -/
def scenarioOneInsights : FusionInsights :=
  { provenance_state := .INCREMENTAL_EDIT, iteration_state := .DELIBERATE_DEBUGGING,
    cognitive_state := .ACTIVE, effective_kpm := 15, effective_ad := 3/10,
    effective_ir := 1/10, integrity_penalty := 0 }

theorem pyRound_scenario_value : pyRound (98/285 : ℚ) 4 = 3439/10000 := by
  have hf : ⌊((98 : ℚ)/285 * 10 ^ 4)⌋ = 3438 := by
    rw [Int.floor_eq_iff]
    norm_num
  unfold pyRound pyRoundHalfEven
  rw [hf]
  norm_num

/-- C7: on the literal scenario-1 metrics, `DataFusionEngine.analyze` returns
`INCREMENTAL_EDIT` / `DELIBERATE_DEBUGGING` / `ACTIVE` with
`effective_kpm = 15`, `effective_ad = 0.3`, `effective_ir = 0.1`, penalty 0,
and `CESCalculator.calculate` yields CES 0.3439 (≈ 0.344), classified
"Moderate Engagement". -/
theorem analyze_calculate_scenario_one :
    analyze scenarioOneMetrics = scenarioOneInsights ∧
    (calculate scenarioOneMetrics (analyze scenarioOneMetrics)).ces = 3439/10000 ∧
    (calculate scenarioOneMetrics (analyze scenarioOneMetrics)).classification =
      "Moderate Engagement" := by
  have h1 : analyze scenarioOneMetrics = scenarioOneInsights := by
    norm_num [analyze, provenanceBlock, secondaryPasteCheck, largeInsertionCheck,
      keystrokeDensity, efficiencyOf, rawKpm, iterationBlock, cognitiveBlock,
      scenarioOneMetrics, scenarioOneInsights, LARGE_INSERTION_THRESHOLD,
      BURST_TYPING_MIN, BURST_TYPING_MAX, SPAM_KEYSTROKE_MINIMUM,
      SPAM_EFFICIENCY_THRESHOLD, RAPID_ITERATION_THRESHOLD,
      REFLECTIVE_PAUSE_MIN, FusionInsights.mk.injEq]
  have hval : W_KPM * normalize 15 MIN_KPM MAX_KPM + W_AD * normalize (3/10) MIN_AD MAX_AD -
      (W_IR * normalize (1/10) MIN_IR MAX_IR +
        W_FVC * normalize (((0 : ℤ) : ℚ)) MIN_FVC MAX_FVC) -
      (0 : ℚ) = 98/285 := by
    norm_num [normalize, MIN_KPM, MAX_KPM, MIN_AD, MAX_AD, MIN_IR, MAX_IR,
      MIN_FVC, MAX_FVC, W_KPM, W_AD, W_IR, W_FVC]
  have hclamp : max (-1 : ℚ) (min 1 (98/285 : ℚ)) = 98/285 := by
    rw [min_eq_right (by norm_num), max_eq_right (by norm_num)]
  refine ⟨h1, ?_, ?_⟩
  · have eces : (calculate scenarioOneMetrics (analyze scenarioOneMetrics)).ces =
        pyRound (max (-1) (min 1 (W_KPM * normalize 15 MIN_KPM MAX_KPM +
          W_AD * normalize (3/10) MIN_AD MAX_AD -
          (W_IR * normalize (1/10) MIN_IR MAX_IR +
            W_FVC * normalize (((0 : ℤ) : ℚ)) MIN_FVC MAX_FVC) - (0 : ℚ)))) 4 := by
      rw [h1]
      rfl
    rw [eces, hval, hclamp]
    exact pyRound_scenario_value
  · have eclass : (calculate scenarioOneMetrics (analyze scenarioOneMetrics)).classification =
        get_label (max (-1) (min 1 (W_KPM * normalize 15 MIN_KPM MAX_KPM +
          W_AD * normalize (3/10) MIN_AD MAX_AD -
          (W_IR * normalize (1/10) MIN_IR MAX_IR +
            W_FVC * normalize (((0 : ℤ) : ℚ)) MIN_FVC MAX_FVC) - (0 : ℚ)))) := by
      rw [h1]
      rfl
    rw [eclass, hval, hclamp]
    unfold get_label
    rw [if_neg (by norm_num), if_pos (by norm_num)]

/-! ## Sandboxed execution: `app/services/execution/docker_execution.py` -/

/-- Python's whitespace set for `str.strip()` (ASCII part). -/
def isPySpace (c : Char) : Bool :=
  c == ' ' || c == '\t' || c == '\n' || c == '\r' || c == '\u000b' || c == '\u000c'

/-- Python `str.strip()`. -/
def pyStrip (s : String) : String :=
  String.mk (((s.data.dropWhile isPySpace).reverse.dropWhile isPySpace).reverse)

/-- One per-case record appended to `test_results`
(docker_execution.py lines 272-279). -/
structure TestRecord where
  test_number : ℕ
  passed : Bool
  input : String
  expected_output : String
  actual_output : String
  error : Option String
deriving DecidableEq

/-- `ExecutionResult` (docker_execution.py lines 16-42). -/
structure ExecutionResult where
  status : String
  output : String
  error : String := ""
  execution_time : ℚ := 0
  exit_code : ℤ := 0
  test_results : List TestRecord := []
deriving DecidableEq

/-- The observable outcome of one container run inside `execute_code`
(docker_execution.py lines 148-240): either `container.wait` returned a
status code (with total measured wall-clock `elapsed`, which includes
container creation, waiting, log retrieval and removal, and is therefore not
bounded by the 5-second wait timeout), or `container.wait` raised (with the
elapsed time measured inside the handler and again in the outer handler if
re-raised), or one of the outer exception paths fired. -/
inductive SandboxOutcome
  | completed (exitCode : ℤ) (stdout stderr : String) (elapsed : ℚ)
  | waitRaised (msg : String) (elapsedAtCheck elapsedAtHandler : ℚ)
  | containerError (msg : String) (elapsed : ℚ)
  | imageNotFound
  | unexpectedFailure (msg : String) (elapsed : ℚ)

/-- The Docker daemon as an oracle: each `(code, stdin)` pair is mapped to
the outcome the environment produced for that run. -/
abbrev SandboxEnv := String → String → SandboxOutcome

/-- `DockerExecutor` default `timeout=5` (docker_execution.py line 63). -/
def EXECUTION_TIMEOUT : ℚ := 5

/-- `DockerExecutor.execute_code` (docker_execution.py lines 129-240): maps a
run outcome to an `ExecutionResult`.  `waitRaised` models the inner
`try/except` around `container.wait`: if the elapsed time measured there has
reached the timeout, a `timeout` result is returned; otherwise the exception
is re-raised and the outer generic handler produces an `error` result. -/
def outcomeResult : SandboxOutcome → ExecutionResult
  | .completed exit_code stdout stderr elapsed =>
      { status := if exit_code = 0 then "success" else "error",
        output := stdout, error := stderr, execution_time := elapsed,
        exit_code := exit_code }
  | .waitRaised msg tCheck tHandler =>
      if tCheck ≥ EXECUTION_TIMEOUT then
        { status := "timeout", output := "",
          error := "Execution exceeded 5 second time limit",
          execution_time := tCheck }
      else
        { status := "error", output := "", error := "Unexpected error: " ++ msg,
          execution_time := tHandler }
  | .containerError msg elapsed =>
      { status := "error", output := "",
        error := "Container execution failed: " ++ msg,
        execution_time := elapsed }
  | .imageNotFound =>
      { status := "error", output := "",
        error := "Python environment not available. Please contact administrator.",
        execution_time := 0 }
  | .unexpectedFailure msg elapsed =>
      { status := "error", output := "", error := "Unexpected error: " ++ msg,
        execution_time := elapsed }

def execute_code (env : SandboxEnv) (code : String) (stdin : String := "") : ExecutionResult :=
  outcomeResult (env code stdin)

/-- `input` / `expected_output` of one test case dict. -/
structure TestCase where
  input : String
  expected_output : String
deriving DecidableEq

/-- The `for i, test_case in enumerate(test_cases)` loop of
`execute_with_tests` (docker_execution.py lines 261-282), returning the
accumulated `(test_results, all_passed, last_result)`. -/
def runTestCases (env : SandboxEnv) (code : String) :
    ℕ → List TestCase → List TestRecord × Bool × Option ExecutionResult
  | _, [] => ([], true, none)
  | i, tc :: rest =>
      let result := execute_code env code tc.input
      let expected := pyStrip tc.expected_output
      let actual := pyStrip result.output
      let passed := (actual == expected) && (result.status == "success")
      let record : TestRecord :=
        { test_number := i + 1, passed := passed, input := tc.input,
          expected_output := expected, actual_output := actual,
          error := if result.error ≠ "" then some result.error else none }
      let restRes := runTestCases env code (i + 1) rest
      (record :: restRes.1, passed && restRes.2.1,
        match restRes.2.2 with
        | some l => some l
        | none => some result)

/-- `DockerExecutor.execute_with_tests` (docker_execution.py lines 242-296). -/
def execute_with_tests (env : SandboxEnv) (code : String)
    (test_cases : List TestCase) : ExecutionResult :=
  let res := runTestCases env code 0 test_cases
  match res.2.2 with
  | some last_result =>
      { last_result with
        test_results := res.1,
        status := if res.2.1 then "success" else "failed_tests",
        error := if res.2.1 then "" else last_result.error }
  | none =>
      let final_result := execute_code env code ""
      { final_result with test_results := res.1 }

theorem runTestCases_spec (env : SandboxEnv) (code : String) :
    ∀ (tcs : List TestCase) (i : ℕ),
      (((runTestCases env code i tcs).2.1 = true) ↔
        ∀ r ∈ (runTestCases env code i tcs).1, r.passed = true) ∧
      (((runTestCases env code i tcs).2.2 = none) ↔ tcs = []) := by
  intro tcs
  induction tcs with
  | nil =>
      intro i
      constructor
      · simp [runTestCases]
      · simp [runTestCases]
  | cons tc rest ih =>
      intro i
      have ihs := ih (i + 1)
      constructor
      · simp only [runTestCases, List.forall_mem_cons, Bool.and_eq_true]
        rw [ihs.1]
      · simp only [runTestCases]
        cases h2 : (runTestCases env code (i + 1) rest).2.2 <;> simp [h2]

/-- C5 (amended): for a NON-empty test-case list, the `ExecutionResult`
returned by `DockerExecutor.execute_with_tests` has status `"success"` iff
every per-case record in its `test_results` has `passed = true`.  For the
empty list the result is the bare single-run `execute_code` result (whose
status may be `"error"` or `"timeout"`) with empty `test_results`, so the
claimed vacuous-success equivalence fails there. -/
theorem execute_with_tests_success_iff (env : SandboxEnv) (code : String)
    (test_cases : List TestCase) :
    (test_cases ≠ [] →
      ((execute_with_tests env code test_cases).status = "success" ↔
        ∀ r ∈ (execute_with_tests env code test_cases).test_results, r.passed = true)) ∧
    (test_cases = [] →
      execute_with_tests env code test_cases =
        { execute_code env code "" with test_results := [] }) := by
  have hspec := runTestCases_spec env code test_cases 0
  constructor
  · intro hne
    unfold execute_with_tests
    dsimp only
    split
    · rename_i l heq
      dsimp only
      constructor
      · intro hst
        refine hspec.1.mp ?_
        by_contra hX
        rw [if_neg hX] at hst
        exact absurd hst (by decide)
      · intro hforall
        rw [if_pos (hspec.1.mpr hforall)]
    · rename_i heq
      exact absurd (hspec.2.mp heq) hne
  · intro hnil
    subst hnil
    rfl

/-- An environment whose every run fails with exit code 1. -/
def failingEnv : SandboxEnv := fun _ _ => .completed 1 "" "boom" (1/10)

/-- C5 counterexample: with an empty test-case list every per-case record
vacuously passes, yet the returned status is the single run's "error", not
"success", refuting the claimed equivalence on the empty list. -/
theorem execute_with_tests_empty_cex :
    (execute_with_tests failingEnv "x" []).status = "error" ∧
    (execute_with_tests failingEnv "x" []).test_results = [] ∧
    (∀ r ∈ (execute_with_tests failingEnv "x" []).test_results, r.passed = true) ∧
    (execute_with_tests failingEnv "x" []).status ≠ "success" := by
  refine ⟨rfl, rfl, ?_, by decide⟩
  intro r hr
  simp only [show (execute_with_tests failingEnv "x" []).test_results = [] from rfl] at hr
  exact absurd hr (List.not_mem_nil r)

/-- An environment that answers "3" on stdout and succeeds. -/
def echoThreeEnv : SandboxEnv := fun _ _ => .completed 0 "3\n" "" (1/10)

/-- C5 witness: the amended theorem applied to a concrete one-case list. -/
theorem execute_with_tests_success_iff_witness :
    (execute_with_tests echoThreeEnv "print(1+2)" [{ input := "", expected_output := "3" }]).status
        = "success" ↔
      ∀ r ∈ (execute_with_tests echoThreeEnv "print(1+2)"
          [{ input := "", expected_output := "3" }]).test_results, r.passed = true :=
  (execute_with_tests_success_iff echoThreeEnv "print(1+2)"
    [{ input := "", expected_output := "3" }]).1 (by simp)

/-- C6 (amended): whenever `DockerExecutor.execute_code` returns status
`"timeout"`, the measured elapsed time is at least 5 seconds and the output
is the empty string.  The converse direction of the claim fails: a run whose
wait completes normally can still measure 5 s or more of total wall-clock
time (container creation, log retrieval and removal are inside the measured
window) while reporting `"success"` or `"error"`. -/
theorem execute_code_timeout_implies (env : SandboxEnv) (code stdin : String)
    (h : (execute_code env code stdin).status = "timeout") :
    EXECUTION_TIMEOUT ≤ (execute_code env code stdin).execution_time ∧
      (execute_code env code stdin).output = "" := by
  have e : execute_code env code stdin = outcomeResult (env code stdin) := rfl
  rw [e] at h ⊢
  cases henv : env code stdin
  case completed exitCode stdout stderr elapsed =>
    rw [henv] at h
    simp only [outcomeResult] at h
    split_ifs at h <;> exact absurd h (by decide)
  case waitRaised msg tCheck tHandler =>
    rw [henv] at h
    simp only [outcomeResult] at h ⊢
    split_ifs at h ⊢ with htime
    · exact ⟨htime, rfl⟩
    · exact absurd h (by simp)
  case containerError msg elapsed =>
    rw [henv] at h
    simp only [outcomeResult] at h
    exact absurd h (by decide)
  case imageNotFound =>
    rw [henv] at h
    simp only [outcomeResult] at h
    exact absurd h (by decide)
  case unexpectedFailure msg elapsed =>
    rw [henv] at h
    simp only [outcomeResult] at h
    exact absurd h (by decide)

/-- An environment in which the container run completes successfully but the
total measured wall-clock time is 6 seconds. -/
def slowSuccessEnv : SandboxEnv := fun _ _ => .completed 0 "done\n" "" 6

/-- C6 counterexample: a run with measured elapsed time 6 ≥ 5 whose status is
"success", not "timeout" — refuting the claimed "iff". -/
theorem execute_code_timeout_iff_cex :
    (execute_code slowSuccessEnv "x" "").status = "success" ∧
    EXECUTION_TIMEOUT ≤ (execute_code slowSuccessEnv "x" "").execution_time ∧
    (execute_code slowSuccessEnv "x" "").status ≠ "timeout" := by
  refine ⟨rfl, ?_, by decide⟩
  show EXECUTION_TIMEOUT ≤ (6 : ℚ)
  norm_num [EXECUTION_TIMEOUT]

/-- An environment in which `container.wait` raises after 6 seconds. -/
def timedOutEnv : SandboxEnv := fun _ _ => .waitRaised "read timed out" 6 (13/2)

/-- C6 witness: the amended theorem applied at `timedOutEnv`. -/
theorem execute_code_timeout_implies_witness :
    EXECUTION_TIMEOUT ≤ (execute_code timedOutEnv "while True: pass" "").execution_time ∧
      (execute_code timedOutEnv "while True: pass" "").output = "" :=
  execute_code_timeout_implies timedOutEnv "while True: pass" ""
    (by norm_num [execute_code, outcomeResult, timedOutEnv, EXECUTION_TIMEOUT])

/-! ## Scope policy: `app/services/ai_orchestrator/policies.py`

The regex patterns of `ScopePolicy` are embedded as explicit matchers over
char lists.  All patterns are case-insensitive (`re.IGNORECASE`), modelled by
lowercasing the query and keeping the pattern literals lowercase.  In every
alternation group used by the source, no alternative is an initial segment of
another, and every `\s+` is followed by a non-space literal, so greedy
first-match semantics coincide with the regex semantics. -/

/-- Python `\w` on ASCII: the word characters delimiting `\b` boundaries. -/
def isWordChar (c : Char) : Bool := c.isAlpha || c.isDigit || c == '_'

/-- `str.lower()` on ASCII text. -/
def toLowerL (s : List Char) : List Char := s.map Char.toLower

/-- Match a literal at the head of `s`; return the remainder on success. -/
def dropLit : List Char → List Char → Option (List Char)
  | [], s => some s
  | _ :: _, [] => none
  | c :: cs, d :: ds => if c = d then dropLit cs ds else none

/-- Match an alternation group `(w1|w2|...)` at the head of `s`. -/
def dropAlts (alts : List (List Char)) (s : List Char) : Option (List Char) :=
  match alts with
  | [] => none
  | a :: rest =>
      match dropLit a s with
      | some r => some r
      | none => dropAlts rest s

/-- Consume `\s+` (one or more whitespace chars, maximal munch). -/
def dropWs1 (s : List Char) : Option (List Char) :=
  match s with
  | c :: rest => if isPySpace c then some (rest.dropWhile isPySpace) else none
  | [] => none

/-- A `\b` right after a match: end of string or a non-word char. -/
def boundaryAfter (s : List Char) : Bool :=
  match s with
  | [] => true
  | c :: _ => !isWordChar c

/-- `(w1|w2|...)\b` at the current position. -/
def wordAltAt (alts : List (List Char)) (s : List Char) : Bool :=
  match dropAlts alts s with
  | some rest => boundaryAfter rest
  | none => false

/-- `re.search` driver: try `p` at every position whose preceding char
admits a `\b` (string start or a non-word char). -/
def scanFor (p : List Char → Bool) : Bool → List Char → Bool
  | prevOk, [] => prevOk && p []
  | prevOk, c :: rest => (prevOk && p (c :: rest)) || scanFor p (!isWordChar c) rest

/-- `re.search` of `\b(w1|w2|...)\b`, case-insensitive. -/
def searchWordAlt (alts : List String) (q : String) : Bool :=
  scanFor (wordAltAt (alts.map String.data)) true (toLowerL q.data)

/-- `\b(medical|legal|financial)\s+advice\b` at the current position. -/
def adviceAt (s : List Char) : Bool :=
  match dropAlts ["medical".data, "legal".data, "financial".data] s with
  | some r1 =>
      match dropWs1 r1 with
      | some r2 =>
          match dropLit "advice".data r2 with
          | some r3 => boundaryAfter r3
          | none => false
      | none => false
  | none => false

/-- `re.search` of the professional-advice pattern. -/
def searchAdvice (q : String) : Bool := scanFor adviceAt true (toLowerL q.data)

/-- `any(pattern.search(user_query) for pattern in OUT_OF_SCOPE_PATTERNS)`
(policies.py lines 45-57 and the loop at lines 70-72). -/
def outOfScopeSearch (q : String) : Bool :=
  searchWordAlt ["weather", "news", "sports", "recipe", "movie", "music"] q ||
  searchWordAlt ["hack", "cheat", "steal", "plagiarize", "copy"] q ||
  searchWordAlt ["personal", "address", "phone", "email", "password"] q ||
  searchAdvice q

/-- `(the\s+)?(second-group)` with regex backtracking into the
group-less branch. -/
def theAlts (seconds : List (List Char)) (s : List Char) : Bool :=
  (match dropLit "the".data s with
   | some r1 =>
       match dropWs1 r1 with
       | some r2 => (dropAlts seconds r2).isSome
       | none => false
   | none => false) ||
  (dropAlts seconds s).isSome

/-- `\b(write|code|implement|complete)\s+(the\s+)?(code|solution|function|program)` -/
def solutionP1At (s : List Char) : Bool :=
  match dropAlts ["write".data, "code".data, "implement".data, "complete".data] s with
  | some r1 =>
      match dropWs1 r1 with
      | some r2 => theAlts ["code".data, "solution".data, "function".data, "program".data] r2
      | none => false
  | none => false

/-- `\bgive\s+me\s+(the\s+)?(answer|solution|code)` -/
def solutionP2At (s : List Char) : Bool :=
  match dropLit "give".data s with
  | some r1 =>
      match dropWs1 r1 with
      | some r2 =>
          match dropLit "me".data r2 with
          | some r3 =>
              match dropWs1 r3 with
              | some r4 => theAlts ["answer".data, "solution".data, "code".data] r4
              | none => false
          | none => false
      | none => false
  | none => false

/-- `\bsolve\s+(this|the)\s+problem` -/
def solutionP3At (s : List Char) : Bool :=
  match dropLit "solve".data s with
  | some r1 =>
      match dropWs1 r1 with
      | some r2 =>
          match dropAlts ["this".data, "the".data] r2 with
          | some r3 =>
              match dropWs1 r3 with
              | some r4 => (dropLit "problem".data r4).isSome
              | none => false
          | none => false
      | none => false
  | none => false

/-- `\bshow\s+me\s+(the\s+)?(solution|code|answer)` -/
def solutionP4At (s : List Char) : Bool :=
  match dropLit "show".data s with
  | some r1 =>
      match dropWs1 r1 with
      | some r2 =>
          match dropLit "me".data r2 with
          | some r3 =>
              match dropWs1 r3 with
              | some r4 => theAlts ["solution".data, "code".data, "answer".data] r4
              | none => false
          | none => false
      | none => false
  | none => false

/-- `any(pattern.search(user_query) for pattern in SOLUTION_SEEKING_PATTERNS)`
(policies.py lines 37-42 and the loop at lines 75-77). -/
def solutionSeekingSearch (q : String) : Bool :=
  scanFor solutionP1At true (toLowerL q.data) ||
  scanFor solutionP2At true (toLowerL q.data) ||
  scanFor solutionP3At true (toLowerL q.data) ||
  scanFor solutionP4At true (toLowerL q.data)

/-- Python substring test `needle in haystack`. -/
def containsSub (needle : List Char) : List Char → Bool
  | [] => (dropLit needle []).isSome
  | c :: rest => (dropLit needle (c :: rest)).isSome || containsSub needle rest

/-- `ScopePolicy.LEARNING_KEYWORDS` (policies.py lines 18-34). -/
def LEARNING_KEYWORDS : List String :=
  ["how", "why", "what", "explain", "understand", "confused",
   "difference", "between", "mean", "means",
   "hint", "stuck", "help", "approach", "strategy", "think",
   "start", "beginning", "idea",
   "error", "bug", "wrong", "not working", "issue", "problem",
   "debug", "fix", "fail",
   "algorithm", "complexity", "time", "space", "data structure",
   "loop", "recursion", "variable", "function"]

/-- `any(keyword in query_lower for keyword in LEARNING_KEYWORDS)`
(policies.py lines 80-82). -/
def hasLearningKeyword (query_lower : String) : Bool :=
  LEARNING_KEYWORDS.any (fun k => containsSub k.data query_lower.data)

/-- `ScopePolicy.quick_filter` (policies.py lines 59-88). -/
def quick_filter (user_query : String) : Bool × String :=
  let query_lower := String.mk (toLowerL user_query.data)
  if outOfScopeSearch user_query then (false, "OUT_OF_SCOPE_DOMAIN")
  else if solutionSeekingSearch user_query then (true, "BORDERLINE_SOLUTION_SEEKING")
  else if hasLearningKeyword query_lower then (true, "LEARNING_ORIENTED")
  else (true, "NEEDS_LLM_VALIDATION")

/-- `InterventionPolicy.INTERVENTION_URGENCY` (policies.py lines 99-104). -/
def INTERVENTION_URGENCY : List (String × ℤ) :=
  [("ACTIVE", 0), ("REFLECTIVE_PAUSE", 1), ("PASSIVE_IDLE", 2), ("DISENGAGEMENT", 3)]

/-- `InterventionPolicy.should_intervene` (policies.py lines 113-131). -/
def should_intervene (cognitive_state iteration_state : String) : Bool :=
  let urgency :=
    (((INTERVENTION_URGENCY.find? (fun p => p.1 == cognitive_state))).map Prod.snd).getD 0
  let urgency2 :=
    if iteration_state = "RAPID_GUESSING" ∨ iteration_state = "MICRO_ITERATION" then
      max urgency 2
    else urgency
  urgency2 ≥ 2

/-! ## Prompts: `app/services/ai_orchestrator/prompts.py` -/

/-- The `system` half of `SOCRATIC_TUTOR_BASE` (prompts.py lines 39-65), with
`.format` substitution modelled as concatenation of the literal segments. -/
def socraticSystemBase (problem_description code_context behavioral_context : String) :
    String :=
  "You are a friendly programming tutor helping absolute beginners learn to code.\n\nYOUR APPROACH:\n- Guide students with simple questions and hints\n- Use everyday language - avoid technical jargon\n- Break down problems into tiny, manageable steps\n- Encourage and reassure - beginners need confidence\n- NEVER give complete solutions - help them discover it\n- Focus on understanding WHY, not just HOW\n- When code is provided, refer to it specifically to help debug or explain\n\nREMEMBER: Your student is a complete NOVICE who might not know:\n- What variables, loops, or functions are yet\n- How to read error messages\n- Basic programming concepts\n- Where to even start\n\nProblem: "
    ++ problem_description ++ "\n\n" ++ code_context ++ "\n\nStudent\x27s context: "
    ++ behavioral_context ++ "\n\nBe patient, kind, and break everything down into baby steps."

/-- `STATE_ADJUSTMENTS` (prompts.py lines 69-75), byte-for-byte including the
source file's own mojibake sequences.  The keys are exactly these five;
there is NO entry for `SPAMMING`, `REFLECTIVE_PAUSE` or `PASSIVE_IDLE`. -/
def STATE_ADJUSTMENTS : List (String × String) :=
  [("DISENGAGEMENT", "\nâš ï¸ The student seems stuck or discouraged. Be extra encouraging and give them a small, concrete step to try right now."),
   ("RAPID_GUESSING", "\nâš ï¸ The student is trying things randomly. Help them slow down and think about what the problem is asking for in simple terms."),
   ("DELIBERATE_DEBUGGING", "\nâœ“ Great! The student is working through their code carefully. Support them with gentle hints about what to check next."),
   ("SUSPECTED_PASTE", "\nâš ï¸ Ask the student to explain what this code does in their own words. Focus on understanding, not memorizing."),
   ("ACTIVE", "\nâœ“ The student is engaged and learning. Give subtle hints that help them discover the answer themselves.")]

/-- `STATE_ADJUSTMENTS` dict lookup. -/
def stateAdjustmentFor (k : String) : Option String :=
  (STATE_ADJUSTMENTS.find? (fun p => p.1 == k)).map Prod.snd

/-- Python truthiness of an `Optional[str]`. -/
def optTruthy : Option String → Bool
  | none => false
  | some s => !(s == "")

/-- The `behavioral_parts` / `behavioral_context` locals of
`build_socratic_prompt` (prompts.py lines 92-103). -/
def behavioralContextOf
    (cognitive_state iteration_state provenance_state : Option String) : String :=
  let behavioral_parts : List String :=
    (if optTruthy cognitive_state then ["Cognitive: " ++ cognitive_state.getD ""] else []) ++
    (if optTruthy iteration_state && !(iteration_state.getD "" == "NORMAL") then
      ["Iteration: " ++ iteration_state.getD ""] else []) ++
    (if optTruthy provenance_state && !(provenance_state.getD "" == "INCREMENTAL_EDIT") then
      ["Code Pattern: " ++ provenance_state.getD ""] else [])
  if behavioral_parts.isEmpty then "Normal engagement"
  else String.intercalate ", " behavioral_parts

/-- The `code_context` local of `build_socratic_prompt` (prompts.py lines
106-115).  Python string slicing `[:800]` is by codepoints, modelled with
`List.take` on the char list. -/
def codeContextOf (current_code : Option String) : String :=
  match current_code with
  | some code =>
      if code == "" then ""
      else
        let code_snippet :=
          if code.data.length > 800 then
            String.mk (code.data.take 800) ++ "\n... (code truncated)"
          else code
        "Student\x27s current code:\n```python\n" ++ code_snippet ++ "\n```\n"
  | none => ""

/-- `build_socratic_prompt` (prompts.py lines 78-135), returning the
`(system_prompt, user_prompt)` pair.  The tail-clause append models
`if primary_state and primary_state in STATE_ADJUSTMENTS:
system_prompt += STATE_ADJUSTMENTS[primary_state]`. -/
def build_socratic_prompt (user_query problem_description : String)
    (current_code : Option String) (cognitive_state : Option String)
    (iteration_state : Option String) (provenance_state : Option String) :
    String × String :=
  let system_prompt := socraticSystemBase problem_description
    (codeContextOf current_code)
    (behavioralContextOf cognitive_state iteration_state provenance_state)
  let primary_state : Option String :=
    if provenance_state = some "SUSPECTED_PASTE" ∨ provenance_state = some "SPAMMING" then
      provenance_state
    else if iteration_state = some "RAPID_GUESSING" then iteration_state
    else cognitive_state
  let system_prompt2 :=
    if optTruthy primary_state then
      match stateAdjustmentFor (primary_state.getD "") with
      | some adj => system_prompt ++ adj
      | none => system_prompt
    else system_prompt
  (system_prompt2, user_query)

/-- `OUT_OF_SCOPE_RESPONSE` (prompts.py lines 138-150), byte-for-byte
including the source file's own mojibake sequences. -/
def OUT_OF_SCOPE_RESPONSE : String :=
  "I\x27m here to help you learn programming! ðŸ˜Š\n\nI can help you with:\nâœ“ Understanding what the problem is asking\nâœ“ Thinking about how to solve it step-by-step\nâœ“ Fixing errors in your code\nâœ“ Explaining programming concepts in simple terms\n\nI can\x27t help with:\nâœ— Questions not about programming\nâœ— Giving you the complete answer (that would prevent you from learning!)\n\nWhat would you like help with in your coding problem?"

/-! ## Pedagogical firewall: `app/services/ai_orchestrator/firewall.py` -/

/-- `ChatContext` (firewall.py lines 23-45). -/
structure ChatContext where
  user_query : String
  problem_description : String
  chat_history : List (String × String) := []
  current_code : Option String := none
  cognitive_state : Option String := none
  iteration_state : Option String := none
  provenance_state : Option String := none
  problem_id : Option String := none

/-- `ChatResponse` (firewall.py lines 48-54). -/
structure ChatResponse where
  message : String
  is_allowed : Bool
  reasoning : Option String := none
  intervention_triggered : Bool := false
deriving DecidableEq

/-- The external LLM provider as an oracle: `validate_scope` and `complete`
either return a value or raise, modelled with `Except`. -/
structure LLMOracle where
  validateScope : String → Except String Bool
  complete : String → String → List (String × String) → Except String String

/-- The inline fallback message of `process_request` (firewall.py 180-188). -/
def LLM_TROUBLE_RESPONSE : String :=
  "I\x27m having trouble processing your request right now. Please try rephrasing your question or try again in a moment."

/-- `PedagogicalFirewall.process_request` (firewall.py lines 84-188). -/
def process_request (llm : LLMOracle) (context : ChatContext) : ChatResponse :=
  let qf := quick_filter context.user_query
  if qf.1 = false then
    { message := OUT_OF_SCOPE_RESPONSE, is_allowed := false, reasoning := some qf.2 }
  else
    let scope_ok : Bool :=
      if qf.2 == "NEEDS_LLM_VALIDATION" then
        match llm.validateScope context.user_query with
        | .ok b => b
        | .error _ => true
      else true
    if scope_ok = false then
      { message := OUT_OF_SCOPE_RESPONSE, is_allowed := false,
        reasoning := some "LLM_VALIDATION_FAILED" }
    else
      let intervention_mode :=
        if optTruthy context.cognitive_state && optTruthy context.iteration_state then
          should_intervene (context.cognitive_state.getD "") (context.iteration_state.getD "")
        else false
      let prompts := build_socratic_prompt context.user_query context.problem_description
        context.current_code context.cognitive_state context.iteration_state
        context.provenance_state
      match llm.complete prompts.1 prompts.2 context.chat_history with
      | .ok response_text =>
          { message := response_text, is_allowed := true, reasoning := some qf.2,
            intervention_triggered := intervention_mode }
      | .error _ =>
          { message := LLM_TROUBLE_RESPONSE, is_allowed := true,
            reasoning := some "LLM_ERROR" }

/-- `PedagogicalFirewall.generate_hint` (firewall.py lines 190-222).  Python
slicing `current_code[:200]` is by codepoints. -/
def generate_hint (llm : LLMOracle) (problem_description : String)
    (current_code : Option String) (cognitive_state : Option String) : String :=
  let hint_query :=
    match current_code with
    | some code =>
        if code == "" then "I\x27m stuck and need a hint to get started."
        else "I\x27m stuck. Here\x27s my current code:\n```\n" ++ String.mk (code.data.take 200)
          ++ "...\n```\nWhat should I focus on?"
    | none => "I\x27m stuck and need a hint to get started."
  let context : ChatContext :=
    { user_query := hint_query, problem_description := problem_description,
      cognitive_state := some (match cognitive_state with
        | some c => if c == "" then "DISENGAGEMENT" else c
        | none => "DISENGAGEMENT") }
  (process_request llm context).message

/-! ## Firewall claims -/

theorem quick_filter_oos {q : String}
    (h : (quick_filter q).2 = "OUT_OF_SCOPE_DOMAIN") :
    quick_filter q = (false, "OUT_OF_SCOPE_DOMAIN") := by
  unfold quick_filter at h ⊢
  dsimp only at h ⊢
  split_ifs at h ⊢ <;> simp_all

/-- C4: whenever the scope fast path classifies the query as
`OUT_OF_SCOPE_DOMAIN`, `process_request` returns the canned out-of-scope
message verbatim with `is_allowed = false`, for EVERY LLM oracle — the LLM is
never consulted and the result does not depend on it. -/
theorem process_request_out_of_scope (llm : LLMOracle) (context : ChatContext)
    (h : (quick_filter context.user_query).2 = "OUT_OF_SCOPE_DOMAIN") :
    process_request llm context =
      { message := OUT_OF_SCOPE_RESPONSE, is_allowed := false,
        reasoning := some "OUT_OF_SCOPE_DOMAIN", intervention_triggered := false } := by
  have hqf := quick_filter_oos h
  unfold process_request
  rw [hqf]
  rfl

/-- A stub oracle: every scope validation succeeds and every completion
returns a fixed reply. -/
def stubOracle : LLMOracle :=
  { validateScope := fun _ => .ok true, complete := fun _ _ _ => .ok "a Socratic reply" }

/-- The literal out-of-scope chat of spec scenario 6. -/
def weatherContext : ChatContext :=
  { user_query := "what\x27s the weather today?", problem_description := "Sum two numbers" }

/-- C4 witness: the theorem applied at the concrete weather query and the
stub oracle. -/
theorem process_request_out_of_scope_witness :
    process_request stubOracle weatherContext =
      { message := OUT_OF_SCOPE_RESPONSE, is_allowed := false,
        reasoning := some "OUT_OF_SCOPE_DOMAIN", intervention_triggered := false } :=
  process_request_out_of_scope stubOracle weatherContext (by decide)

/-- The spec's stated priority for the tail clause:
`SUSPECTED_PASTE`/`SPAMMING` before `RAPID_GUESSING` before the cognitive
state. -/
def specPrimaryState
    (cognitive_state iteration_state provenance_state : Option String) : Option String :=
  if provenance_state = some "SUSPECTED_PASTE" ∨ provenance_state = some "SPAMMING" then
    provenance_state
  else if iteration_state = some "RAPID_GUESSING" then iteration_state
  else cognitive_state

/-- The tail clause attached for the priority-selected state: its
`STATE_ADJUSTMENTS` entry when one exists, and nothing otherwise. -/
def specTailClause
    (cognitive_state iteration_state provenance_state : Option String) : String :=
  if optTruthy (specPrimaryState cognitive_state iteration_state provenance_state) then
    (stateAdjustmentFor
      ((specPrimaryState cognitive_state iteration_state provenance_state).getD "")).getD ""
  else ""

theorem string_append_empty_right (s : String) : s ++ "" = s := by
  cases s with
  | mk l => show String.mk (l ++ []) = String.mk l
            rw [List.append_nil]

theorem tail_append_eq (B : String) (X : Option String) :
    (if optTruthy X then
        match stateAdjustmentFor (X.getD "") with
        | some adj => B ++ adj
        | none => B
      else B) =
    B ++ (if optTruthy X then (stateAdjustmentFor (X.getD "")).getD "" else "") := by
  by_cases ht : optTruthy X = true
  · rw [if_pos ht, if_pos ht]
    cases hadj : stateAdjustmentFor (X.getD "")
    · exact (string_append_empty_right _).symm
    · rfl
  · rw [if_neg ht, if_neg ht]
    exact (string_append_empty_right _).symm

/-- C8 (amended): `build_socratic_prompt` appends AT MOST one state-specific
tail clause, selected by priority `SUSPECTED_PASTE`/`SPAMMING` >
`RAPID_GUESSING` > cognitive state; when the selected state has no
`STATE_ADJUSTMENTS` entry (notably `SPAMMING`, `REFLECTIVE_PAUSE`,
`PASSIVE_IDLE`) no clause is appended at all. -/
theorem build_socratic_prompt_tail (q pd : String) (cc c i p : Option String) :
    (build_socratic_prompt q pd cc c i p).1 =
      socraticSystemBase pd (codeContextOf cc) (behavioralContextOf c i p) ++
        specTailClause c i p := by
  unfold build_socratic_prompt specTailClause specPrimaryState
  dsimp only
  by_cases h1 : p = some "SUSPECTED_PASTE" ∨ p = some "SPAMMING"
  · rw [if_pos h1]
    exact tail_append_eq _ p
  · rw [if_neg h1]
    by_cases h2 : i = some "RAPID_GUESSING"
    · rw [if_pos h2]
      exact tail_append_eq _ i
    · rw [if_neg h2]
      exact tail_append_eq _ c

set_option maxRecDepth 100000 in
/-- C8 counterexample: with all three states provided and provenance
`SPAMMING`, the priority-selected state is `SPAMMING`, which has no
`STATE_ADJUSTMENTS` entry, so NO tail clause is appended: the returned
system prompt equals the bare base prompt, refuting "appends exactly one
state-specific tail clause". -/
theorem build_socratic_prompt_spamming_cex :
    (build_socratic_prompt "q" "p" none (some "DISENGAGEMENT") (some "RAPID_GUESSING")
        (some "SPAMMING")).1 =
      socraticSystemBase "p" (codeContextOf none)
        (behavioralContextOf (some "DISENGAGEMENT") (some "RAPID_GUESSING")
          (some "SPAMMING")) ∧
    specTailClause (some "DISENGAGEMENT") (some "RAPID_GUESSING") (some "SPAMMING") = "" ∧
    stateAdjustmentFor "SPAMMING" = none := by
  refine ⟨by decide, by decide, by decide⟩

theorem process_request_oos_msg (llm : LLMOracle) (context : ChatContext)
    (h : (quick_filter context.user_query).1 = false) :
    (process_request llm context).message = OUT_OF_SCOPE_RESPONSE := by
  unfold process_request
  dsimp only
  rw [if_pos h]

/-- C10: there exists a `current_code` value (the single word "copy") for
which `generate_hint` returns the canned out-of-scope message instead of a
hint, for every LLM oracle: the code is spliced verbatim into the synthetic
"I'm stuck" query and the out-of-scope pattern matches "copy" in that query
before any learning keyword is considered. -/
theorem generate_hint_out_of_scope_exists :
    ∃ code : String, ∀ (llm : LLMOracle) (pd : String) (cog : Option String),
      generate_hint llm pd (some code) cog = OUT_OF_SCOPE_RESPONSE := by
  refine ⟨"copy", ?_⟩
  intro llm pd cog
  unfold generate_hint
  dsimp only
  apply process_request_oos_msg
  dsimp only
  decide

end RbAI
